import Mathlib

/-!
Shallow embedding of the AggregatingMemory storage engine
(`StorageAggregatingMemory.cpp`) and the pass-through compression codec
(`CompressionCodecNone.cpp`).

Modelling conventions:
* A `Block` is an ordered list of named columns; per-column row count,
  byte size and allocated byte size are explicit fields, matching the
  values the C++ accessors `rows()`, `bytes()`, `allocatedBytes()` return.
* The store (`StorageAggregatingMemory`) is a record of the published
  block sequence (`data`, the atomically swapped `MultiVersion` pointer)
  and the two atomic counters `total_size_rows` / `total_size_bytes`.
  All writer paths run under one lock, so each operation is a function
  from store state to store state (or to an error).
* C++ exceptions become `Except`/error results; `assert` statements are
  modelled as aborting with an error (debug semantics), and an aborted
  operation leaves the store unchanged because in the source every write
  to the published state happens only after the asserts.
* The external mutation pipeline (`MutationsInterpreter`) is an excluded
  collaborator: `mutate` is parameterized by its drained output
  `(isAffectingAllColumns, blocks)` exactly as the source consumes it.
-/

namespace AggregatingMemory

/-- One column of a block: its row count (`size()`), its byte size
(`byteSize()`), its allocated byte size (`allocatedBytes()`), an opaque
type tag, and an opaque payload identifying the column data. -/
structure Column where
  size : Nat
  byteSize : Nat
  allocatedByteSize : Nat
  ty : Nat
  payload : Nat
deriving DecidableEq, Repr

/-- A columnar batch (C++ `Block`): an ordered list of named columns. -/
structure Block where
  columns : List (String × Column)
deriving DecidableEq, Repr

/-- Block row count: the row count of the first column (C++ `Block::rows()`)
or 0 when the block has no columns. -/
def Block.rows (b : Block) : Nat :=
  match b.columns with
  | [] => 0
  | c :: _ => c.2.size

/-- Block byte count: sum of per-column byte sizes (C++ `Block::bytes()`). -/
def Block.bytes (b : Block) : Nat :=
  (b.columns.map (fun p => p.2.byteSize)).sum

/-- Block allocated byte count: sum of per-column allocated byte sizes
(C++ `Block::allocatedBytes()`). -/
def Block.allocatedBytes (b : Block) : Nat :=
  (b.columns.map (fun p => p.2.allocatedByteSize)).sum

/-- Column lookup by name (C++ `Block::getByName`, with the not-found
exception represented as `none`). -/
def Block.getByName (b : Block) (n : String) : Option Column :=
  (b.columns.find? (fun p => p.1 = n)).map Prod.snd

/-- Store state of `StorageAggregatingMemory`: the published block
sequence held by the `MultiVersion` pointer `data`, plus the two atomic
counters. -/
structure StoreState where
  data : List Block
  total_size_rows : Nat
  total_size_bytes : Nat
deriving DecidableEq, Repr

/-- C++ `StorageAggregatingMemory::totalRows`: load of `total_size_rows`. -/
def totalRows (s : StoreState) : Nat := s.total_size_rows

/-- C++ `StorageAggregatingMemory::totalBytes`: load of `total_size_bytes`. -/
def totalBytes (s : StoreState) : Nat := s.total_size_bytes

/-! ## MemorySource (scanner) -/

/-- Result of one `MemorySource::generate()` call: a delivered chunk
(recording which batch index `current_index` it was built from, the
projected columns, and the row count), the empty result `{}` returned at
end of data, or the unknown-column exception thrown by `getByName`. -/
inductive GenResult where
  | chunk (index : Nat) (cols : List Column) (rows : Nat)
  | empty
  | unknownColumn
deriving DecidableEq, Repr

/-- Projection loop of `generate` (lines 72-79): for each requested column
name, look the column up in the source block by name. Subcolumn extraction
is performed by the external type object in the source and is not modelled;
requested names are plain storage column names here. Returns `none` when a
name is absent (the scan-fatal unknown-column condition). -/
def projectColumns (names : List String) (b : Block) : Option (List Column) :=
  names.mapM (fun n => b.getByName n)

/-- Per-source state of a `MemorySource`: the requested column names, the
snapshot of block data captured for this scan, the claim cursor (the shared
`parallel_execution_index` when present, otherwise the private
`execution_index` - both advance identically, by one per call), and the
one-shot `initializer_func`, modelled as an optional replacement applied to
`data` exactly once. -/
structure MemorySourceState where
  column_names : List String
  data : List Block
  cursor : Nat
  initializer_func : Option (List Block → List Block)

/-- C++ `MemorySource::generate`: run the one-shot initializer if present,
claim the next index by increment-and-read, and either deliver the
projection of the claimed batch or return the empty result when the index
is out of range. -/
def generate (st : MemorySourceState) : MemorySourceState × GenResult :=
  let st1 : MemorySourceState :=
    match st.initializer_func with
    | some f => { st with data := f st.data, initializer_func := none }
    | none => st
  let current_index := st1.cursor
  let st2 : MemorySourceState := { st1 with cursor := st1.cursor + 1 }
  if current_index < st2.data.length then
    let src := st2.data.getD current_index ⟨[]⟩
    match projectColumns st2.column_names src with
    | some cols => (st2, GenResult.chunk current_index cols src.rows)
    | none => (st2, GenResult.unknownColumn)
  else
    (st2, GenResult.empty)

/-- Global trace of `m` successive `generate` calls against one shared
cursor starting at `cursor`, over the fixed snapshot `data` (the read path
constructs every worker without an initializer and with the same snapshot
and the same shared atomic cursor, so each call's outcome depends only on
the cursor value it atomically claims; any concurrent interleaving of
worker calls is therefore equivalent to this sequential trace taken in
cursor-claim order). -/
def genTrace (names : List String) (data : List Block) (cursor : Nat) : Nat → List GenResult
  | 0 => []
  | Nat.succ m =>
    let step := generate ⟨names, data, cursor, none⟩
    step.2 :: genTrace names step.1.data step.1.cursor m

/-- The batch index a generate result delivered, if any. -/
def deliveredIndex : GenResult → Option Nat
  | GenResult.chunk i _ _ => some i
  | GenResult.empty => none
  | GenResult.unknownColumn => none

/-- Batch indices delivered over the first `m` calls of a scan whose shared
cursor starts at 0. The multiset union of deliveries across workers equals
the multiset of this list, however the calls are partitioned among
workers. -/
def deliveredIndices (names : List String) (data : List Block) (m : Nat) : List Nat :=
  (genTrace names data 0 m).filterMap deliveredIndex

/-- Number of worker sources built by `StorageAggregatingMemory::read`
(lines 190-205): the requested stream count, clamped down to the snapshot
size. -/
def readNumStreams (num_streams : Nat) (s : StoreState) : Nat :=
  let size := s.data.length
  if num_streams > size then size else num_streams

/-! ## AggregatingOutputStream (appender) -/

/-- Table schema as checked by the metadata snapshot: column name/type
pairs. Modelled from the spec: `StorageInMemoryMetadata::check(block, true)`
is external to this repository; per the spec an appended block's column
names and types must match the table's column descriptor set, otherwise the
append fails with a ValidationError. -/
def blockMatchesSchema (schema : List (String × Nat)) (b : Block) : Bool :=
  b.columns.all (fun p => schema.any (fun q => p.1 == q.1 && p.2.ty == q.2)) &&
  schema.all (fun q => b.columns.any (fun p => p.1 == q.1 && p.2.ty == q.2))

/-- Error raised by a failed append-time schema check. -/
inductive WriteError where
  | validationError
deriving DecidableEq, Repr

/-- Buffer of a write session (`AggregatingOutputStream::new_blocks`). -/
structure OutputStream where
  new_blocks : List Block
deriving DecidableEq, Repr

/-- C++ `AggregatingOutputStream::write`: check the block against the
metadata snapshot, then append it to the private session buffer. The store
state is threaded through unchanged: `write` performs no access to the
published sequence or the counters. -/
def write (schema : List (String × Nat)) (s : StoreState) (os : OutputStream)
    (b : Block) : Except WriteError (StoreState × OutputStream) :=
  if blockMatchesSchema schema b then
    Except.ok (s, ⟨os.new_blocks ++ [b]⟩)
  else
    Except.error WriteError.validationError

/-- A whole write session: the given blocks are appended one by one via
`write`; the first failing check aborts the session. -/
def runWrites (schema : List (String × Nat)) : StoreState → OutputStream → List Block →
    Except WriteError (StoreState × OutputStream)
  | s, os, [] => Except.ok (s, os)
  | s, os, b :: bs =>
    match write schema s os b with
    | Except.ok (s1, os1) => runWrites schema s1 os1 bs
    | Except.error e => Except.error e

/-- C++ `AggregatingOutputStream::writeSuffix`: sum the buffered rows and
allocated bytes, then under the lock rebuild the sequence as
current snapshot ++ buffered blocks, publish it, and add the sums to the
counters (`total_size_bytes += inserted_bytes`,
`total_size_rows += inserted_rows`). -/
def writeSuffix (os : OutputStream) (s : StoreState) : StoreState :=
  let inserted_bytes := (os.new_blocks.map Block.allocatedBytes).sum
  let inserted_rows := (os.new_blocks.map Block.rows).sum
  { data := s.data ++ os.new_blocks
    total_size_rows := s.total_size_rows + inserted_rows
    total_size_bytes := s.total_size_bytes + inserted_bytes }

/-! ## Construction and registration -/

/-- The parts of the `CREATE` query the constructor inspects: the optional
select-with-union clause, holding the list of child selects
(`query.select->list_of_selects->children`, each child opaque here). -/
structure ASTCreateQuery where
  select : Option (List Nat)
deriving DecidableEq, Repr

/-- Failure kinds of construction and registration, named as in the spec:
both construction throws use the C++ code INCORRECT_QUERY and registration
uses NUMBER_OF_ARGUMENTS_DOESNT_MATCH, distinguished here by throw site. -/
inductive CreateError where
  | missingDefiningQuery
  | unsupportedUnionQuery
  | unexpectedArguments
deriving DecidableEq, Repr

/-- C++ `StorageAggregatingMemory::StorageAggregatingMemory` (lines
153-176): throw if no select clause is given, throw if the select list does
not hold exactly one select, otherwise finish construction with an empty
published sequence and zero counters. -/
def constructStorage (q : ASTCreateQuery) : Except CreateError StoreState :=
  match q.select with
  | none => Except.error CreateError.missingDefiningQuery
  | some selects =>
    if selects.length ≠ 1 then
      Except.error CreateError.unsupportedUnionQuery
    else
      Except.ok { data := [], total_size_rows := 0, total_size_bytes := 0 }

/-- C++ `registerStorageAggregatingMemory` factory lambda (lines 310-324):
throw on any supplied engine argument, otherwise construct the storage. -/
def registerStorageAggregatingMemory (engine_args : List Nat)
    (q : ASTCreateQuery) : Except CreateError StoreState :=
  if engine_args.isEmpty then
    constructStorage q
  else
    Except.error CreateError.unexpectedArguments

/-! ## Drop, truncate -/

/-- C++ `StorageAggregatingMemory::drop`: publish an empty sequence and
store zero into both counters. -/
def drop (_ : StoreState) : StoreState :=
  { data := [], total_size_rows := 0, total_size_bytes := 0 }

/-- C++ `StorageAggregatingMemory::truncate`: identical body to `drop`. -/
def truncate (_ : StoreState) : StoreState :=
  { data := [], total_size_rows := 0, total_size_bytes := 0 }

/-! ## Mutation -/

/-- C++ `updateBlockData` (lines 222-230): for every column of the new
block, overwrite the same-named column of the old block with the new
column's data, leaving other columns untouched. -/
def updateBlockData (old_block new_block : Block) : Block :=
  ⟨new_block.columns.foldl
    (fun cols it => cols.map (fun q => if q.1 = it.1 then (q.1, it.2) else q))
    old_block.columns⟩

/-- Internal-consistency failure of a mutation: one of the two `assert`
statements guarding the positional merge fired (modelled with debug
semantics: a failed assert aborts the mutation). -/
inductive MutateError where
  | internalInvariantViolation
deriving DecidableEq, Repr

/-- Positional merge loop of `mutate` (lines 260-274): walk the copied
current sequence and the replacement sequence in lockstep, updating each
block; `assert(out_it != out.end())` inside the loop aborts when the
replacement sequence is shorter, and the trailing
`assert(out_it == out.end())` aborts when it is longer. -/
def mergeBlocks : List Block → List Block → Except MutateError (List Block)
  | [], [] => Except.ok []
  | [], _ :: _ => Except.error MutateError.internalInvariantViolation
  | _ :: _, [] => Except.error MutateError.internalInvariantViolation
  | d :: ds, o :: os =>
    match mergeBlocks ds os with
    | Except.ok rest => Except.ok (updateBlockData d o :: rest)
    | Except.error e => Except.error e

/-- C++ `StorageAggregatingMemory::mutate` (lines 232-287), parameterized
by the drained output of the external rewrite pipeline: the
`isAffectingAllColumns` flag and the replacement blocks `out`. When all
columns are affected the replacement wholly supersedes the sequence;
otherwise the positional merge runs. Then the row and byte sums over the
new sequence are computed and stored - the source stores the row sum into
`total_size_bytes` and the byte sum into `total_size_rows` (lines 284-285)
- and the new sequence is published. -/
def mutate (isAffectingAllColumns : Bool) (out : List Block)
    (s : StoreState) : Except MutateError StoreState :=
  match (if isAffectingAllColumns then Except.ok out else mergeBlocks s.data out) with
  | Except.error e => Except.error e
  | Except.ok new_data =>
    let rows := (new_data.map Block.rows).sum
    let bytes := (new_data.map Block.bytes).sum
    Except.ok { data := new_data
                total_size_bytes := rows
                total_size_rows := bytes }

/-- Observable outcome of a mutation call: the resulting store state plus
the error, if any. An aborted mutation leaves the store unchanged, because
in the source the asserts fire while only the private copy `new_data` has
been touched - the counter stores and `data.set` at lines 284-286 have not
yet run. -/
def runMutation (isAffectingAllColumns : Bool) (out : List Block)
    (s : StoreState) : StoreState × Option MutateError :=
  match mutate isAffectingAllColumns out s with
  | Except.ok s1 => (s1, none)
  | Except.error e => (s, some e)

/-! ## CompressionCodecNone -/

/-- Error raised by the pass-through decoder on a size mismatch
(C++ code CORRUPTED_DATA). -/
inductive CodecError where
  | corruptedData
deriving DecidableEq, Repr

/-- Byte-level `memcpy(dest, source, n)`: the first `n` bytes of `dest`
become the first `n` bytes of `source`; the rest of `dest` is untouched. -/
def memcpy (dest source : List Nat) (n : Nat) : List Nat :=
  source.take n ++ dest.drop n

/-- C++ `CompressionCodecNone::doCompressData`: copy all `source_size`
(here `source.length`) bytes into the destination buffer and return the
number of bytes written. -/
def doCompressData (source dest : List Nat) : List Nat × Nat :=
  (memcpy dest source source.length, source.length)

/-- C++ `CompressionCodecNone::doDecompressData`: throw CORRUPTED_DATA
when the actual source size (`source.length`) differs from the declared
`uncompressed_size`, otherwise copy `uncompressed_size` bytes into the
destination buffer. -/
def doDecompressData (source dest : List Nat) (uncompressed_size : Nat) :
    Except CodecError (List Nat) :=
  if source.length ≠ uncompressed_size then
    Except.error CodecError.corruptedData
  else
    Except.ok (memcpy dest source uncompressed_size)

/-! ## Concrete inputs used by the witnesses -/

/-- Column with 10 rows, 100 bytes, 120 allocated bytes. -/
def wcolA : Column := ⟨10, 100, 120, 0, 1⟩

/-- Column with 5 rows, 60 bytes, 80 allocated bytes. -/
def wcolB : Column := ⟨5, 60, 80, 0, 2⟩

/-- Column with 3 rows, 30 bytes, 40 allocated bytes. -/
def wcolC : Column := ⟨3, 30, 40, 0, 3⟩

/-- Batch with one column named a: 10 rows, 100 bytes. -/
def wblkA : Block := ⟨[("a", wcolA)]⟩

/-- Batch with one column named a: 5 rows, 60 bytes. -/
def wblkB : Block := ⟨[("a", wcolB)]⟩

/-- Batch with one column named a: 3 rows, 30 bytes. -/
def wblkC : Block := ⟨[("a", wcolC)]⟩

/-! ## Helper lemmas -/

/-- One generate call leaves the per-source state unchanged except for the
incremented cursor (read-path instantiation: no initializer). -/
lemma generate_fst (names : List String) (data : List Block) (c : Nat) :
    (generate ⟨names, data, c, none⟩).1 = ⟨names, data, c + 1, none⟩ := by
  simp only [generate]
  split
  · split <;> rfl
  · rfl

/-- A generate call whose claimed index is out of range returns the empty
result. -/
lemma generate_snd_empty (names : List String) (data : List Block) (c : Nat)
    (h : data.length ≤ c) :
    (generate ⟨names, data, c, none⟩).2 = GenResult.empty := by
  simp only [generate]
  rw [if_neg (by omega)]

/-- A generate call whose claimed index is in range and whose projection
succeeds delivers the chunk built from that batch. -/
lemma generate_snd_chunk (names : List String) (data : List Block) (c : Nat)
    (cols : List Column) (h : c < data.length)
    (hp : projectColumns names (data.getD c ⟨[]⟩) = some cols) :
    (generate ⟨names, data, c, none⟩).2 =
      GenResult.chunk c cols (data.getD c ⟨[]⟩).rows := by
  simp only [generate]
  rw [if_pos h, hp]

/-- Unfolding one step of the shared-cursor call trace. -/
lemma genTrace_succ (names : List String) (data : List Block) (c m : Nat) :
    genTrace names data c (m + 1) =
      (generate ⟨names, data, c, none⟩).2 :: genTrace names data (c + 1) m := by
  simp only [genTrace, generate_fst]

/-- The batch indices delivered by `m` calls whose shared cursor starts at
`c` are exactly the consecutive indices from `c`, stopping at the snapshot
size or at the call budget, whichever comes first. -/
lemma genTrace_filterMap (names : List String) (data : List Block)
    (hp : ∀ b ∈ data, (projectColumns names b).isSome) :
    ∀ (m c : Nat), (genTrace names data c m).filterMap deliveredIndex =
      List.range' c (min m (data.length - c)) := by
  intro m
  induction m with
  | zero => intro c; simp [genTrace]
  | succ m ih =>
    intro c
    by_cases h : c < data.length
    · have hmem : data.getD c ⟨[]⟩ ∈ data := by
        rw [List.getD_eq_getElem _ _ h]
        exact List.getElem_mem h
      obtain ⟨cols, hcols⟩ := Option.isSome_iff_exists.mp (hp _ hmem)
      rw [genTrace_succ, generate_snd_chunk names data c cols h hcols]
      rw [List.filterMap_cons]
      have hdel : deliveredIndex (GenResult.chunk c cols (data.getD c ⟨[]⟩).rows) = some c := rfl
      rw [hdel, ih (c + 1)]
      have hmin : min (m + 1) (data.length - c) = min m (data.length - (c + 1)) + 1 := by omega
      rw [hmin]
      rfl
    · rw [genTrace_succ, generate_snd_empty names data c (by omega)]
      rw [List.filterMap_cons]
      have hdel : deliveredIndex GenResult.empty = none := rfl
      rw [hdel, ih (c + 1)]
      have h1 : data.length - (c + 1) = 0 := by omega
      have h2 : data.length - c = 0 := by omega
      rw [h1, h2]
      simp

/-- A scan over an empty snapshot delivers no batches, however many calls
are made. -/
lemma deliveredIndices_nil (names : List String) (m : Nat) :
    deliveredIndices names [] m = [] := by
  rw [deliveredIndices, genTrace_filterMap names [] (by simp) m 0]
  simp

/-- The positional merge aborts whenever the two sequences have different
lengths. -/
lemma mergeBlocks_length_mismatch :
    ∀ (ds os : List Block), ds.length ≠ os.length →
      mergeBlocks ds os = Except.error MutateError.internalInvariantViolation := by
  intro ds
  induction ds with
  | nil =>
    intro os h
    cases os with
    | nil => simp at h
    | cons o os => rfl
  | cons d ds ih =>
    intro os h
    cases os with
    | nil => rfl
    | cons o os =>
      have hne : ds.length ≠ os.length := by
        simp only [List.length_cons] at h
        omega
      rw [mergeBlocks, ih os hne]

/-- A write session whose blocks all pass the schema check leaves the store
untouched and accumulates exactly those blocks, in order, after any already
buffered ones. -/
lemma runWrites_ok (schema : List (String × Nat)) (s : StoreState) :
    ∀ (bs acc : List Block),
      (∀ b ∈ bs, blockMatchesSchema schema b = true) →
      runWrites schema s ⟨acc⟩ bs = Except.ok (s, ⟨acc ++ bs⟩) := by
  intro bs
  induction bs with
  | nil =>
    intro acc h
    simp [runWrites]
  | cons b bs ih =>
    intro acc h
    have hb : blockMatchesSchema schema b = true := h b (by simp)
    simp only [runWrites, write, if_pos hb]
    rw [ih (acc ++ [b]) (fun x hx => h x (by simp [hx]))]
    simp

/-- The pass-through decoder succeeds when the declared size equals both the
source size and the destination capacity, reproducing the source bytes. -/
lemma doDecompressData_eq_ok (source dest : List Nat) (n : Nat)
    (hs : source.length = n) (hd : dest.length = n) :
    doDecompressData source dest n = Except.ok source := by
  subst hs
  rw [doDecompressData, if_neg (by omega), memcpy, List.take_length, ← hd,
    List.drop_length, List.append_nil]

/-! ## Claim theorems -/

/-- Claim C1 (code bug, counterexample evaluation): the claim states that a
completed mutation leaves `totalRows()` equal to the row sum and
`totalBytes()` equal to the byte sum of the published sequence, each
counter in its correct slot. The code stores the row sum into
`total_size_bytes` and the byte sum into `total_size_rows` (lines 284-285),
so after an all-columns mutation publishing one batch of 10 rows and 100
bytes, `totalRows()` returns 100 and `totalBytes()` returns 10, refuting
the claim at this input. -/
theorem mutation_counter_slots_swapped :
    Block.rows wblkA = 10 ∧ Block.bytes wblkA = 100 ∧
    runMutation true [wblkA] ⟨[], 0, 0⟩ = (⟨[wblkA], 100, 10⟩, none) ∧
    totalRows (runMutation true [wblkA] ⟨[], 0, 0⟩).1 = 100 ∧
    totalBytes (runMutation true [wblkA] ⟨[], 0, 0⟩).1 = 10 ∧
    ¬(totalRows (runMutation true [wblkA] ⟨[], 0, 0⟩).1 =
        ((runMutation true [wblkA] ⟨[], 0, 0⟩).1.data.map Block.rows).sum) := by
  decide

/-- Claim C2: a partial-column mutation whose replacement sequence length
differs from the current sequence length aborts with the
internal-invariant-violation fault, and the store is left exactly as it was
(pre-mutation sequence still published, counters unchanged). -/
theorem partial_mutation_length_mismatch_aborts
    (s : StoreState) (out : List Block) (h : out.length ≠ s.data.length) :
    runMutation false out s = (s, some MutateError.internalInvariantViolation) := by
  have hm := mergeBlocks_length_mismatch s.data out (fun he => h he.symm)
  simp [runMutation, mutate, hm]

/-- Claim C2 witness: a 3-batch store receiving only 2 replacement batches
aborts and remains unchanged. -/
theorem partial_mutation_witness :
    runMutation false [wblkA, wblkB] ⟨[wblkA, wblkA, wblkA], 7, 9⟩ =
      (⟨[wblkA, wblkA, wblkA], 7, 9⟩, some MutateError.internalInvariantViolation) :=
  partial_mutation_length_mismatch_aborts ⟨[wblkA, wblkA, wblkA], 7, 9⟩ [wblkA, wblkB]
    (by decide)

/-- Claim C3: over a snapshot of N batches, once every worker has drained
the shared cursor (at least N calls in total, in any interleaving), the
batch indices delivered across all calls are exactly 0, ..., N-1, each
exactly once - no loss and no double delivery. The multiset union across
any partition of the calls among workers equals the multiset of this
list. -/
theorem parallel_scan_delivers_each_batch_exactly_once
    (names : List String) (data : List Block) (m : Nat)
    (hp : ∀ b ∈ data, (projectColumns names b).isSome)
    (hm : data.length ≤ m) :
    deliveredIndices names data m = List.range data.length := by
  rw [deliveredIndices, genTrace_filterMap names data hp m 0]
  rw [Nat.sub_zero, Nat.min_eq_right hm]
  exact (List.range_eq_range' _).symm

/-- Claim C3 witness: two batches, three calls, delivered indices are
exactly 0 and 1, once each. -/
theorem parallel_scan_witness :
    deliveredIndices ["a"] [wblkA, wblkB] 3 = List.range 2 :=
  parallel_scan_delivers_each_batch_exactly_once ["a"] [wblkA, wblkB] 3 (by decide)
    (by decide)

/-- Claim C4: a write session that buffers blocks b1..bk leaves the
published sequence and both counters untouched until finalize (the store
component threads through every `write` unchanged, so an abandoned session
changes nothing), and finalize publishes exactly the old sequence followed
by b1..bk, adding the buffered row sum to the row counter and the buffered
byte sum (the `allocatedBytes` measure used by `writeSuffix`) to the byte
counter. -/
theorem append_session_atomic_commit (schema : List (String × Nat)) (s : StoreState)
    (bs : List Block) (h : ∀ b ∈ bs, blockMatchesSchema schema b = true) :
    runWrites schema s ⟨[]⟩ bs = Except.ok (s, ⟨bs⟩) ∧
    writeSuffix ⟨bs⟩ s =
      { data := s.data ++ bs
        total_size_rows := s.total_size_rows + (bs.map Block.rows).sum
        total_size_bytes := s.total_size_bytes + (bs.map Block.allocatedBytes).sum } := by
  constructor
  · simpa using runWrites_ok schema s bs [] h
  · rfl

/-- Claim C4 witness: a session inserting a 10-row/120-allocated-byte batch
and a 5-row/80-allocated-byte batch over a 1-batch store leaves the store
untouched before finalize and extends sequence and counters at finalize. -/
theorem append_session_witness :
    runWrites [("a", 0)] ⟨[wblkC], 3, 40⟩ ⟨[]⟩ [wblkA, wblkB] =
      Except.ok (⟨[wblkC], 3, 40⟩, ⟨[wblkA, wblkB]⟩) ∧
    writeSuffix ⟨[wblkA, wblkB]⟩ ⟨[wblkC], 3, 40⟩ =
      { data := ([wblkC] : List Block) ++ [wblkA, wblkB]
        total_size_rows := 3 + ([wblkA, wblkB].map Block.rows).sum
        total_size_bytes := 40 + ([wblkA, wblkB].map Block.allocatedBytes).sum } :=
  append_session_atomic_commit [("a", 0)] ⟨[wblkC], 3, 40⟩ [wblkA, wblkB] (by decide)

/-- Claim C5: once the shared cursor has reached the snapshot size, every
subsequent generate call returns the empty result - a terminated scanner
never again produces data, for any number of further calls. -/
theorem terminated_scanner_stays_empty (names : List String) (data : List Block)
    (c m : Nat) (h : data.length ≤ c) :
    genTrace names data c m = List.replicate m GenResult.empty := by
  induction m generalizing c with
  | zero => rfl
  | succ m ih =>
    rw [genTrace_succ, generate_snd_empty names data c h, ih (c + 1) (by omega)]
    rfl

/-- Claim C5 witness: with 2 batches and the cursor already at 5, three
further calls all return the empty result. -/
theorem terminated_scanner_witness :
    genTrace ["a"] [wblkA, wblkB] 5 3 = List.replicate 3 GenResult.empty :=
  terminated_scanner_stays_empty ["a"] [wblkA, wblkB] 5 3 (by decide)

/-- Claim C6: construction fails with the missing-defining-query error when
no select clause is supplied, fails with the unsupported-union error when
the select list holds more than one select, registration fails with the
unexpected-arguments error on any non-empty engine argument list, and a
successful construction always yields the one fully initialized empty
store - there is no partially constructed result. -/
theorem construction_fails_atomically (q : ASTCreateQuery) (sel : List Nat)
    (args : List Nat) :
    (q.select = none → constructStorage q = Except.error CreateError.missingDefiningQuery) ∧
    (q.select = some sel → 1 < sel.length →
      constructStorage q = Except.error CreateError.unsupportedUnionQuery) ∧
    (args ≠ [] →
      registerStorageAggregatingMemory args q = Except.error CreateError.unexpectedArguments) ∧
    (∀ st : StoreState, constructStorage q = Except.ok st →
      st = { data := [], total_size_rows := 0, total_size_bytes := 0 }) := by
  refine ⟨?_, ?_, ?_, ?_⟩
  · intro h
    rw [constructStorage, h]
  · intro h hlen
    rw [constructStorage, h]
    simp only [if_pos (by omega : sel.length ≠ 1)]
  · intro h
    cases args with
    | nil => exact absurd rfl h
    | cons a as => rfl
  · intro st hst
    obtain ⟨osel⟩ := q
    cases osel with
    | none => exact absurd hst (by simp [constructStorage])
    | some sel2 =>
      simp only [constructStorage] at hst
      split at hst
      · exact absurd hst (by simp)
      · exact (Except.ok.inj hst).symm

/-- Claim C6 witness: no select clause, a two-select union, and one engine
argument each fail with their respective errors; a single select succeeds
with the empty store. -/
theorem construction_witness :
    constructStorage ⟨none⟩ = Except.error CreateError.missingDefiningQuery ∧
    constructStorage ⟨some [0, 1]⟩ = Except.error CreateError.unsupportedUnionQuery ∧
    registerStorageAggregatingMemory [5] ⟨some [0]⟩ =
      Except.error CreateError.unexpectedArguments ∧
    constructStorage ⟨some [0]⟩ =
      Except.ok { data := [], total_size_rows := 0, total_size_bytes := 0 } :=
  ⟨(construction_fails_atomically ⟨none⟩ [] []).1 rfl,
   (construction_fails_atomically ⟨some [0, 1]⟩ [0, 1] []).2.1 rfl (by decide),
   (construction_fails_atomically ⟨some [0]⟩ [] [5]).2.2.1 (by decide),
   rfl⟩

/-- Claim C7: a read with requested parallelism P over a snapshot of N
batches creates exactly min(P, N) worker sources; when the snapshot is
empty zero workers are created and a scan over the empty snapshot delivers
no batches at all. -/
theorem read_clamps_worker_count (P : Nat) (s : StoreState) :
    readNumStreams P s = min P s.data.length ∧
    (∀ rows bytes : Nat, readNumStreams P ⟨[], rows, bytes⟩ = 0) ∧
    (∀ (names : List String) (m : Nat), deliveredIndices names [] m = []) := by
  refine ⟨?_, ?_, ?_⟩
  · simp only [readNumStreams]
    split <;> omega
  · intro rows bytes
    simp only [readNumStreams, List.length_nil]
    split <;> omega
  · intro names m
    exact deliveredIndices_nil names m

/-- Claim C8: the pass-through decoder fails with the corrupted-data error
exactly when the declared decompressed size differs from the actual source
size, and when the sizes match (with a destination buffer of the declared
size) the decoded output is byte-for-byte the source. -/
theorem none_codec_decompress_exact (source dest : List Nat) (n : Nat)
    (hd : dest.length = n) :
    ((doDecompressData source dest n = Except.error CodecError.corruptedData) ↔
      source.length ≠ n) ∧
    (source.length = n → doDecompressData source dest n = Except.ok source) := by
  constructor
  · constructor
    · intro h hn
      rw [doDecompressData_eq_ok source dest n hn hd] at h
      exact absurd h (by simp)
    · intro hn
      rw [doDecompressData, if_pos hn]
  · intro hn
    exact doDecompressData_eq_ok source dest n hn hd

/-- Claim C8 witness: a matching 3-byte decode reproduces the source and a
2-byte source declared as 3 bytes fails with the corrupted-data error. -/
theorem none_codec_decompress_witness :
    doDecompressData [1, 2, 3] [9, 9, 9] 3 = Except.ok [1, 2, 3] ∧
    doDecompressData [1, 2] [9, 9, 9] 3 = Except.error CodecError.corruptedData :=
  ⟨(none_codec_decompress_exact [1, 2, 3] [9, 9, 9] 3 rfl).2 rfl,
   (none_codec_decompress_exact [1, 2] [9, 9, 9] 3 rfl).1.mpr (by decide)⟩

/-- Claim C9: after drop or truncate the published sequence is empty, both
counters read zero, and a scan started afterwards delivers zero batches. -/
theorem drop_truncate_reset (s : StoreState) (names : List String) (m : Nat) :
    (drop s).data = [] ∧ totalRows (drop s) = 0 ∧ totalBytes (drop s) = 0 ∧
    (truncate s).data = [] ∧ totalRows (truncate s) = 0 ∧ totalBytes (truncate s) = 0 ∧
    deliveredIndices names (drop s).data m = [] ∧
    deliveredIndices names (truncate s).data m = [] :=
  ⟨rfl, rfl, rfl, rfl, rfl, rfl, deliveredIndices_nil names m, deliveredIndices_nil names m⟩

/-- Claim C10: the NONE codec's compression is the identity - it writes the
source bytes unchanged into the destination and returns the source length -
so decoding the compressed output with declared size equal to the source
length succeeds and yields exactly the source (round-trip). -/
theorem none_codec_identity_roundtrip (x d1 d2 : List Nat) (h2 : d2.length = x.length) :
    (doCompressData x d1).2 = x.length ∧
    (doCompressData x d1).1.take x.length = x ∧
    doDecompressData ((doCompressData x d1).1.take x.length) d2 x.length =
      Except.ok x := by
  have htake : (doCompressData x d1).1.take x.length = x := by
    rw [doCompressData, memcpy, List.take_length]
    exact List.take_left x (d1.drop x.length)
  refine ⟨rfl, htake, ?_⟩
  rw [htake]
  exact doDecompressData_eq_ok x d2 x.length rfl h2

/-- Claim C10 witness: compressing the bytes 1, 2, 3 writes them unchanged,
returns length 3, and decompressing the output yields them back. -/
theorem none_codec_roundtrip_witness :
    (doCompressData [1, 2, 3] [0, 0, 0, 0]).2 = [1, 2, 3].length ∧
    (doCompressData [1, 2, 3] [0, 0, 0, 0]).1.take [1, 2, 3].length = [1, 2, 3] ∧
    doDecompressData ((doCompressData [1, 2, 3] [0, 0, 0, 0]).1.take [1, 2, 3].length)
      [7, 7, 7] [1, 2, 3].length = Except.ok [1, 2, 3] :=
  none_codec_identity_roundtrip [1, 2, 3] [0, 0, 0, 0] [7, 7, 7] rfl

end AggregatingMemory
